import Mathlib

/-!
Verification of the HerbalTrace dashboard (herba-path-trace).

The development shallowly embeds the portal logic of the five source pages
and the QR token codec plus traceability aggregator described in the
design document. Pure functions of the source become Lean functions;
each user action becomes an explicit state-passing function whose result
records whether a row-store call was issued. The row store itself is a
record of row lists; machine time is passed in as an explicit argument.
-/

/-! ## QR token codec (section 4.1 of the design document) -/

/-- Modelled from the spec: the QR payload shape produced and consumed by the
codec in the missing module utils/blockchain, namely a type tag, a product
identifier and a sequence of batch identifiers. -/
structure QRPayload where
  type : String
  productId : String
  batchIds : List String
deriving DecidableEq, Repr

/-- Modelled from the spec: escape one character of a payload field so that
the field separator bar and the escape backslash survive the round trip. -/
def escChar (c : Char) : List Char :=
  if c = '\\' ∨ c = '|' then ['\\', c] else [c]

/-- Modelled from the spec: escape a whole payload field. -/
def escField : List Char → List Char
  | [] => []
  | c :: cs => escChar c ++ escField cs

/-- Modelled from the spec: read one escaped field up to its terminating
unescaped bar; returns the unescaped field and the rest of the input, or
none when the token does not match the expected structure. -/
def readField : List Char → Option (List Char × List Char)
  | [] => none
  | c :: cs =>
    if c = '|' then some ([], cs)
    else if c = '\\' then
      match cs with
      | [] => none
      | d :: ds => (readField ds).map (fun p => (d :: p.1, p.2))
    else (readField cs).map (fun p => (c :: p.1, p.2))

/-- Modelled from the spec: read the unary batch count, a run of hash marks
terminated by a bar. -/
def readCount : List Char → Option (Nat × List Char)
  | [] => none
  | c :: cs =>
    if c = '#' then (readCount cs).map (fun p => (p.1 + 1, p.2))
    else if c = '|' then some (0, cs)
    else none

/-- Modelled from the spec: encode a sequence of batch identifier fields,
each terminated by a bar. -/
def encFields : List (List Char) → List Char
  | [] => []
  | f :: fs => escField f ++ '|' :: encFields fs

/-- Modelled from the spec: read exactly the announced number of fields. -/
def readFields : Nat → List Char → Option (List (List Char) × List Char)
  | 0, cs => some ([], cs)
  | n + 1, cs =>
    (readField cs).bind (fun p =>
      (readFields n p.2).map (fun q => (p.1 :: q.1, q.2)))

/-- Modelled from the spec: the encode operation of the QR token codec in
the missing module utils/blockchain (imported by FactoryPortal as
generateQRCode): a deterministic, reversible, pure mapping from the payload
to one opaque string token. -/
def generateQRCode (p : QRPayload) : String :=
  String.mk (escField p.type.data ++ '|' ::
    (escField p.productId.data ++ '|' ::
      (List.replicate p.batchIds.length '#' ++ '|' ::
        encFields (p.batchIds.map String.data))))

/-- Modelled from the spec: the decode operation of the QR token codec,
inverse of generateQRCode; returns none when the token does not match the
expected structure (the MalformedToken failure kind). -/
def decodeQRCode (s : String) : Option QRPayload :=
  match readField s.data with
  | none => none
  | some (ty, r1) =>
    match readField r1 with
    | none => none
    | some (pid, r2) =>
      match readCount r2 with
      | none => none
      | some (n, r3) =>
        match readFields n r3 with
        | none => none
        | some (fs, r4) =>
          if r4 = [] then some ⟨String.mk ty, String.mk pid, fs.map String.mk⟩
          else none

theorem readField_bar (cs : List Char) : readField ('|' :: cs) = some ([], cs) := by
  rw [readField.eq_def]; simp

theorem readField_esc (d : Char) (ds : List Char) :
    readField ('\\' :: d :: ds) = (readField ds).map (fun p => (d :: p.1, p.2)) := by
  rw [readField.eq_def]; simp

theorem readField_other (c : Char) (cs : List Char) (h1 : c ≠ '\\') (h2 : c ≠ '|') :
    readField (c :: cs) = (readField cs).map (fun p => (c :: p.1, p.2)) := by
  rw [readField.eq_def]; simp [h1, h2]

theorem readCount_hash (cs : List Char) :
    readCount ('#' :: cs) = (readCount cs).map (fun p => (p.1 + 1, p.2)) := by
  rw [readCount.eq_def]; simp

theorem readCount_bar (cs : List Char) : readCount ('|' :: cs) = some (0, cs) := by
  rw [readCount.eq_def]; simp

theorem readField_escField (s : List Char) (r : List Char) :
    readField (escField s ++ '|' :: r) = some (s, r) := by
  induction s with
  | nil => simpa [escField] using readField_bar r
  | cons c cs ih =>
    by_cases hc : c = '\\' ∨ c = '|'
    · have hesc : escChar c = ['\\', c] := by simp [escChar, hc]
      simp [escField, hesc, List.append_assoc, readField_esc, ih]
    · push_neg at hc
      have hesc : escChar c = [c] := by simp [escChar, hc.1, hc.2]
      simp [escField, hesc, List.append_assoc, readField_other c _ hc.1 hc.2, ih]

theorem readCount_replicate (n : Nat) (r : List Char) :
    readCount (List.replicate n '#' ++ '|' :: r) = some (n, r) := by
  induction n with
  | zero => simpa using readCount_bar r
  | succ m ih => simp [List.replicate_succ, readCount_hash, ih]

theorem readFields_encFields (fs : List (List Char)) (r : List Char) :
    readFields fs.length (encFields fs ++ r) = some (fs, r) := by
  induction fs with
  | nil => simp [encFields, readFields]
  | cons f gs ih =>
    simp [encFields, readFields, List.append_assoc, readField_escField, ih]

theorem map_mk_map_data (l : List String) :
    l.map (String.mk ∘ String.data) = l := by
  induction l with
  | nil => rfl
  | cons s ss ih =>
    simp only [List.map_cons, ih]
    rfl

/-- C1: for every QR payload, decoding the token produced by encoding the
payload yields the identical payload. -/
theorem qr_roundtrip (p : QRPayload) :
    decodeQRCode (generateQRCode p) = some p := by
  have hfields := readFields_encFields (p.batchIds.map String.data) []
  rw [List.length_map, List.append_nil] at hfields
  unfold generateQRCode decodeQRCode
  simp [readField_escField, readCount_replicate, hfields, map_mk_map_data]

/-! ## Row store data model (sections 3 and 6 of the design document)

Rows mirror the tables consumed through the row store client. Numeric and
display-only columns that no claim inspects are kept as their raw text;
timestamps are strings. -/

/-- The seven-field results payload written by the Lab portal form
(LabPortal.tsx, testResults state). -/
structure TestResultsForm where
  moisture_content : String
  pesticide_residue : String
  heavy_metals : String
  microbial_count : String
  dna_barcode : String
  overall_grade : String
  notes : String
deriving DecidableEq, Repr

/-- A row of the products table (FactoryPortal.tsx createProduct insert). -/
structure ProductRow where
  id : String
  manufacturer_id : String
  product_name : String
  product_type : String
  qr_code : String
  batch_ids : List String
deriving DecidableEq, Repr

/-- A row of the batches table (FactoryPortal.tsx Batch interface). -/
structure BatchRow where
  id : String
  batch_id : String
  herb_id : String
  aggregator_id : String
  batch_status : String
  creation_timestamp : String
deriving DecidableEq, Repr

/-- A row of the quality_tests table (LabPortal.tsx QualityTest interface). -/
structure QualityTestRow where
  id : String
  batch_id : String
  lab_id : String
  sample_id : String
  test_type : String
  test_status : String
  test_results : Option TestResultsForm
  completion_date : Option String
deriving DecidableEq, Repr

/-- A row of the processing_steps table (FactoryPortal.tsx ProcessingStep
interface). -/
structure ProcessingStepRow where
  id : String
  batch_id : String
  processor_id : String
  process_type : String
  completion_date : Option String
deriving DecidableEq, Repr

/-- A row of the collection_events table (CollectorPortal CollectionEvent
interface). -/
structure CollectionEventRow where
  id : String
  collector_id : String
  herb_id : String
  quantity_kg : String
deriving DecidableEq, Repr

/-- The opaque hosted row store: one list of rows per consumed table. -/
structure DB where
  products : List ProductRow
  batches : List BatchRow
  qualityTests : List QualityTestRow
  processingSteps : List ProcessingStepRow
  collections : List CollectionEventRow
deriving DecidableEq, Repr

/-! ## Traceability aggregator (section 4.2 of the design document) -/

/-- The denormalized trace result composed by the aggregator
(ConsumerPortal.tsx TraceabilityData interface). -/
structure TraceResult where
  product : ProductRow
  batches : List BatchRow
  collections : List CollectionEventRow
  qualityTests : List QualityTestRow
  processingSteps : List ProcessingStepRow
deriving DecidableEq, Repr

/-- Outcome of a resolution: the token is unknown, or one trace result. -/
inductive ResolveResult where
  | notFound : ResolveResult
  | found : TraceResult → ResolveResult
deriving DecidableEq, Repr

/-- Modelled from the spec: the resolve operation of the traceability
aggregator in the missing module utils/blockchain (imported by
ConsumerPortal as getQRCodeData). Steps of section 4.2: decode the token,
on decode failure report NotFound; look the product up by its stored QR
value, if absent report NotFound; fetch the batch rows named by the
product batch_ids; fetch the collection events whose herb linkage matches
a resolved batch; fetch the quality tests and processing steps whose
batch_id is in the resolved batch set; compose the trace result. -/
def resolve (db : DB) (token : String) : ResolveResult :=
  match decodeQRCode token with
  | none => ResolveResult.notFound
  | some _ =>
    match db.products.find? (fun p => p.qr_code == token) with
    | none => ResolveResult.notFound
    | some prod =>
      let bs := prod.batch_ids.filterMap
        (fun bid => db.batches.find? (fun b => b.id == bid))
      let cols := db.collections.filter
        (fun c => bs.any (fun b => b.herb_id == c.herb_id))
      let qts := db.qualityTests.filter
        (fun t => prod.batch_ids.contains t.batch_id)
      let pss := db.processingSteps.filter
        (fun s => prod.batch_ids.contains s.batch_id)
      ResolveResult.found ⟨prod, bs, cols, qts, pss⟩

theorem length_filterMap_of_isSome {α β : Type} (f : α → Option β) (l : List α)
    (h : ∀ a ∈ l, (f a).isSome) : (l.filterMap f).length = l.length := by
  induction l with
  | nil => rfl
  | cons a as ih =>
    have ha : (f a).isSome := h a (List.mem_cons_self a as)
    obtain ⟨b, hb⟩ := Option.isSome_iff_exists.mp ha
    have has : ∀ x ∈ as, (f x).isSome := fun x hx => h x (List.mem_cons_of_mem a hx)
    simp [List.filterMap_cons, hb, ih has]

/-- C2: a token that fails decoding, and a token that decodes but is not
stored as the QR value of any product row, both resolve to NotFound, the
same outcome with no distinguished failure kind. -/
theorem resolve_unknown_token_notFound (db : DB) (token : String)
    (h : decodeQRCode token = none ∨ ∀ p ∈ db.products, p.qr_code ≠ token) :
    resolve db token = ResolveResult.notFound := by
  unfold resolve
  rcases h with hdec | hqr
  · simp [hdec]
  · cases hdec : decodeQRCode token with
    | none => simp
    | some payload =>
      have hfind : db.products.find? (fun p => p.qr_code == token) = none := by
        rw [List.find?_eq_none]
        intro p hp
        simp [hqr p hp]
      simp [hfind]

/-- C3: when a token decodes and its product row is registered, and every
batch id of the product has a stored batch row, the composed trace result
has as many batch rows as the product has batch_ids, and its quality tests
are exactly the stored quality test rows whose batch_id is among the
product batch_ids. -/
theorem resolve_found_trace_shape (db : DB) (token : String)
    (payload : QRPayload) (prod : ProductRow)
    (hdec : decodeQRCode token = some payload)
    (hfind : db.products.find? (fun p => p.qr_code == token) = some prod)
    (hrows : ∀ bid ∈ prod.batch_ids, ∃ b ∈ db.batches, b.id = bid) :
    ∃ tr : TraceResult, resolve db token = ResolveResult.found tr ∧
      tr.product = prod ∧
      tr.batches.length = prod.batch_ids.length ∧
      (∀ t : QualityTestRow,
        t ∈ tr.qualityTests ↔ t ∈ db.qualityTests ∧ t.batch_id ∈ prod.batch_ids) := by
  refine ⟨⟨prod,
      prod.batch_ids.filterMap (fun bid => db.batches.find? (fun b => b.id == bid)),
      db.collections.filter
        (fun c => (prod.batch_ids.filterMap
          (fun bid => db.batches.find? (fun b => b.id == bid))).any
            (fun b => b.herb_id == c.herb_id)),
      db.qualityTests.filter (fun t => prod.batch_ids.contains t.batch_id),
      db.processingSteps.filter (fun s => prod.batch_ids.contains s.batch_id)⟩,
    ?_, rfl, ?_, ?_⟩
  · unfold resolve
    simp [hdec, hfind]
  · apply length_filterMap_of_isSome
    intro bid hbid
    obtain ⟨b, hbmem, hbid2⟩ := hrows bid hbid
    rw [List.find?_isSome]
    exact ⟨b, hbmem, by simp [hbid2]⟩
  · intro t
    simp [List.mem_filter, List.elem_iff]

/-! ## Consumer portal scan action (ConsumerPortal.tsx) -/

/-- Embedding of the JavaScript trim used by the scan action: drop
whitespace characters from both ends of the string. -/
def jsTrim (s : String) : String :=
  String.mk
    (((s.data.dropWhile Char.isWhitespace).reverse.dropWhile Char.isWhitespace).reverse)

/-- Component state of ConsumerPortal: the input field, the displayed
trace data, the loading flag and the on-page error message. -/
structure ConsumerState where
  qrCode : String
  traceData : Option TraceResult
  loading : Bool
  error : String
deriving DecidableEq, Repr

/-- Modelled from the spec: the user-facing message carried in the error
field of the aggregator result when the token is unknown; the text itself
lives in the missing module utils/blockchain. -/
def notFoundMessage : String := "Product not found"

/-- Embedding of scanQRCode (ConsumerPortal.tsx lines 40 to 81): an empty
or all-whitespace input is rejected with a toast before any lookup;
otherwise the aggregator is called once on the trimmed token, and the
state fields are written as in the source: trace data cleared up front,
loading cleared at the end, error and trace data set according to the
outcome. The second component counts the aggregator calls issued. -/
def scanQRCode (db : DB) (st : ConsumerState) : ConsumerState × Nat :=
  if jsTrim st.qrCode = "" then (st, 0)
  else
    match resolve db (jsTrim st.qrCode) with
    | ResolveResult.notFound =>
      ({ st with traceData := none, loading := false, error := notFoundMessage }, 1)
    | ResolveResult.found tr =>
      ({ st with traceData := some tr, loading := false, error := "" }, 1)

theorem dropWhile_whitespace_nil (l : List Char) (h : ∀ c ∈ l, c.isWhitespace) :
    l.dropWhile Char.isWhitespace = [] := by
  induction l with
  | nil => rfl
  | cons c cs ih =>
    have hc := h c (List.mem_cons_self c cs)
    simp only [List.dropWhile_cons, hc, if_true]
    exact ih (fun d hd => h d (List.mem_cons_of_mem c hd))

theorem jsTrim_all_whitespace (s : String) (h : ∀ c ∈ s.data, c.isWhitespace) :
    jsTrim s = "" := by
  unfold jsTrim
  rw [dropWhile_whitespace_nil s.data h]
  rfl

/-- C10: a scan whose input is empty or all whitespace issues no lookup
and leaves the whole component state unchanged. -/
theorem scan_blank_input_noop (db : DB) (st : ConsumerState)
    (h : ∀ c ∈ st.qrCode.data, c.isWhitespace) :
    scanQRCode db st = (st, 0) := by
  unfold scanQRCode
  simp [jsTrim_all_whitespace st.qrCode h]

/-- Closed instance of C10 at the two-space input. -/
theorem scan_blank_input_noop_witness :
    (∀ c ∈ ("  " : String).data, c.isWhitespace) ∧
    scanQRCode ⟨[], [], [], [], []⟩ ⟨"  ", none, false, ""⟩ =
      (⟨"  ", none, false, ""⟩, 0) :=
  ⟨by decide, scan_blank_input_noop ⟨[], [], [], [], []⟩ ⟨"  ", none, false, ""⟩ (by decide)⟩

/-- A trace result previously displayed, used to exhibit a pre-action
state that a failed scan does not restore. -/
def sampleTrace : TraceResult :=
  ⟨⟨"p0", "m0", "Brahmi Oil", "oil", "tok0", ["B0"]⟩, [], [], [], []⟩

/-- C5 counterexample: with a trace already on screen, a failed scan of an
unknown token does not return the component to its pre-action state — the
displayed trace data is cleared and a persistent on-page error is set. -/
theorem scan_failure_not_pre_state_counterexample :
    (scanQRCode ⟨[], [], [], [], []⟩ ⟨"BAD", some sampleTrace, false, ""⟩).1.error =
      notFoundMessage ∧
    (scanQRCode ⟨[], [], [], [], []⟩ ⟨"BAD", some sampleTrace, false, ""⟩).1 ≠
      ⟨"BAD", some sampleTrace, false, ""⟩ := by
  decide

/-- C5 amended: a failed scan leaves the component responsive (loading is
cleared) and surfaces a notification, but the resulting visible state is
not the pre-action state: trace data is cleared and the error message is
recorded on the page. -/
theorem scan_failure_resulting_state (db : DB) (st : ConsumerState)
    (hne : jsTrim st.qrCode ≠ "")
    (hnf : resolve db (jsTrim st.qrCode) = ResolveResult.notFound) :
    (scanQRCode db st).1 =
      { st with traceData := none, loading := false, error := notFoundMessage } := by
  unfold scanQRCode
  simp [hne, hnf]

/-- Closed instance of the amended C5 statement. -/
theorem scan_failure_resulting_state_witness :
    jsTrim ("BAD" : String) ≠ "" ∧
    resolve ⟨[], [], [], [], []⟩ (jsTrim "BAD") = ResolveResult.notFound ∧
    (scanQRCode ⟨[], [], [], [], []⟩ ⟨"BAD", some sampleTrace, false, ""⟩).1 =
      ⟨"BAD", none, false, notFoundMessage⟩ :=
  ⟨by decide, by decide,
    scan_failure_resulting_state ⟨[], [], [], [], []⟩ ⟨"BAD", some sampleTrace, false, ""⟩
      (by decide) (by decide)⟩

/-! ## Portal create and update actions (section 4.3)

The free-form JSON text fields are parsed with JSON.parse in the source;
the success of that parse is abstracted as a Boolean predicate jsonOk
passed to each action, since no claim depends on the parse itself. -/

/-- Result of one portal action: rejected by the local validation toast,
aborted because a free-form JSON field failed to parse, or one insert
issued with the given row. -/
inductive ActionResult (α : Type) where
  | rejected : ActionResult α
  | parseFailed : ActionResult α
  | inserted : α → ActionResult α
deriving DecidableEq, Repr

/-- Form state of the Factory processing form (FactoryPortal.tsx
processForm). -/
structure ProcessForm where
  process_type : String
  input_quantity_kg : String
  process_parameters : String
  process_conditions : String
deriving DecidableEq, Repr

/-- The row inserted into processing_steps by createProcessingStep. -/
structure StepInsert where
  batch_id : String
  processor_id : String
  process_type : String
  input_quantity_kg : String
  process_parameters : String
  process_conditions : String
deriving DecidableEq, Repr

/-- Embedding of createProcessingStep (FactoryPortal.tsx lines 119 to 164):
a missing selected batch, an empty process type or an empty input quantity
is rejected before any store call; the two JSON fields fall back to the
empty object text when empty, as in the source. -/
def createProcessingStep (jsonOk : String → Bool) (profileId : String)
    (selectedBatch : Option BatchRow) (form : ProcessForm) :
    ActionResult StepInsert :=
  match selectedBatch with
  | none => ActionResult.rejected
  | some b =>
    if form.process_type = "" ∨ form.input_quantity_kg = "" then
      ActionResult.rejected
    else
      let pp := if form.process_parameters = "" then "\x7b\x7d"
        else form.process_parameters
      let pc := if form.process_conditions = "" then "\x7b\x7d"
        else form.process_conditions
      if jsonOk pp && jsonOk pc then
        ActionResult.inserted
          ⟨b.id, profileId, form.process_type, form.input_quantity_kg, pp, pc⟩
      else ActionResult.parseFailed

/-- Form state of the Factory product form (FactoryPortal.tsx productForm). -/
structure ProductForm where
  product_name : String
  product_type : String
  final_quantity : String
  unit_type : String
  formulation_details : String
deriving DecidableEq, Repr

/-- The row inserted into products by createProduct. -/
structure ProductInsert where
  manufacturer_id : String
  product_name : String
  product_type : String
  final_quantity : String
  unit_type : String
  formulation_details : String
  batch_ids : List String
  qr_code : String
deriving DecidableEq, Repr

/-- Embedding of the batch id computation inside createProduct
(FactoryPortal.tsx lines 177 to 180): the batch ids of the fetched
processing steps that carry a completion date. -/
def productBatchIds (steps : List ProcessingStepRow) : List String :=
  (steps.filter (fun s => s.completion_date.isSome)).map (fun s => s.batch_id)

/-- Embedding of createProduct (FactoryPortal.tsx lines 166 to 224): local
non-empty checks on product_name and final_quantity only, then the QR
token is generated from a timestamp-derived product id and the
completed-step batch ids, and one insert is issued. -/
def createProduct (jsonOk : String → Bool) (profileId : String) (nowMs : Nat)
    (form : ProductForm) (steps : List ProcessingStepRow) :
    ActionResult ProductInsert :=
  if form.product_name = "" ∨ form.final_quantity = "" then ActionResult.rejected
  else
    let batchIds := productBatchIds steps
    let qr := generateQRCode ⟨"product", "PROD_" ++ toString nowMs, batchIds⟩
    let fd := if form.formulation_details = "" then "\x7b\x7d"
      else form.formulation_details
    if jsonOk fd then
      ActionResult.inserted ⟨profileId, form.product_name, form.product_type,
        form.final_quantity, form.unit_type, fd, batchIds, qr⟩
    else ActionResult.parseFailed

/-- A row of the collectors table (CollectorPortal Collector interface). -/
structure CollectorRow where
  id : String
  collector_type : String
  verification_status : String
deriving DecidableEq, Repr

/-- The browser geolocation pair; the coordinates are never inspected by
any claim, so they are kept as opaque integers. -/
structure GeoLocation where
  lat : Int
  lng : Int
deriving DecidableEq, Repr

/-- Form state of the collection form (CollectorPortal collectionForm). -/
structure CollectionForm where
  herb_id : String
  quantity_kg : String
  plant_part : String
  harvest_season : String
  initial_condition : String
  environmental_data : String
  storage_conditions : String
deriving DecidableEq, Repr

/-- The row inserted into collection_events by recordCollection. -/
structure CollectionInsert where
  collector_id : String
  herb_id : String
  quantity_kg : String
  lat : Int
  lng : Int
  plant_part : String
  harvest_season : String
  initial_condition : String
deriving DecidableEq, Repr

/-- Embedding of recordCollection (the CollectorPortal component bundled in
LabPortal.tsx, lines 499 to 551): one guard rejects a missing collector
profile, a missing location, an empty herb_id or an empty quantity_kg
before any store call; the optional JSON fields are parsed only when
non-empty, as in the source. -/
def recordCollection (jsonOk : String → Bool) (collector : Option CollectorRow)
    (location : Option GeoLocation) (form : CollectionForm) :
    ActionResult CollectionInsert :=
  match collector, location with
  | some col, some loc =>
    if form.herb_id = "" ∨ form.quantity_kg = "" then ActionResult.rejected
    else
      if (form.environmental_data == "" || jsonOk form.environmental_data) &&
         (form.storage_conditions == "" || jsonOk form.storage_conditions) then
        ActionResult.inserted ⟨col.id, form.herb_id, form.quantity_kg,
          loc.lat, loc.lng, form.plant_part, form.harvest_season,
          form.initial_condition⟩
      else ActionResult.parseFailed
  | _, _ => ActionResult.rejected

/-- Form state of the Admin herb form (AdminPortal.tsx herbForm). -/
structure HerbForm where
  botanical_name : String
  local_name : String
  plant_family : String
  conservation_status : String
  approved_regions : String
  medicinal_properties : String
  harvest_season : String
deriving DecidableEq, Repr

/-- The row inserted into herbs by createHerb; empty optional fields become
null. -/
structure HerbInsert where
  botanical_name : String
  local_name : String
  plant_family : Option String
  conservation_status : Option String
  approved_regions : Option (List String)
  medicinal_properties : Option (List String)
  harvest_season : Option (List String)
deriving DecidableEq, Repr

/-- Embedding of the comma split and per-item trim used by createHerb. -/
def splitCommaTrim (s : String) : List String :=
  (s.splitOn ",").map jsTrim

/-- Embedding of createHerb (AdminPortal.tsx lines 125 to 165): the insert
is issued unconditionally — no local validation of any field precedes the
store call; empty optional fields become null and the three
comma-separated text fields are split and trimmed when non-empty. -/
def createHerb (form : HerbForm) : ActionResult HerbInsert :=
  ActionResult.inserted ⟨form.botanical_name, form.local_name,
    (if form.plant_family = "" then none else some form.plant_family),
    (if form.conservation_status = "" then none else some form.conservation_status),
    (if form.approved_regions = "" then none
      else some (splitCommaTrim form.approved_regions)),
    (if form.medicinal_properties = "" then none
      else some (splitCommaTrim form.medicinal_properties)),
    (if form.harvest_season = "" then none
      else some (splitCommaTrim form.harvest_season))⟩

/-- Embedding of the row rewrite performed by the updateTestResults store
call (LabPortal.tsx lines 92 to 99): the row whose id matches the selected
test receives the form results, the completed status and a completion
date. -/
def applyTestUpdate (now : String) (results : TestResultsForm) (selId : String)
    (t : QualityTestRow) : QualityTestRow :=
  if t.id = selId then
    { t with
        test_results := some results
        test_status := "completed"
        completion_date := some now }
  else t

/-- Embedding of updateTestResults (LabPortal.tsx lines 88 to 127): a no-op
without a selected test, otherwise the update is applied to the stored
quality test rows; there is no guard on the current test status. -/
def updateTestResults (now : String) (results : TestResultsForm)
    (selected : Option QualityTestRow) (tests : List QualityTestRow) :
    List QualityTestRow :=
  match selected with
  | none => tests
  | some sel => tests.map (applyTestUpdate now results sel.id)

/-- Embedding of the available-batch query of fetchData (FactoryPortal.tsx
lines 70 to 105): select the batches whose batch_status equals approved,
ordered by creation_timestamp descending. -/
def fetchAvailableBatches (db : DB) : List BatchRow :=
  List.insertionSort (fun a b => b.creation_timestamp ≤ a.creation_timestamp)
    (db.batches.filter (fun b => b.batch_status == "approved"))

/-! ## Theorems about the portal actions -/

/-- A parse predicate accepting every JSON text, used in closed instances. -/
def jsonOkAlways : String → Bool := fun _ => true

/-- C9: every batch in the Factory portal available list carries the
approved status. -/
theorem availableBatches_all_approved (db : DB) (b : BatchRow)
    (h : b ∈ fetchAvailableBatches db) : b.batch_status = "approved" := by
  unfold fetchAvailableBatches at h
  have hmem : b ∈ db.batches.filter (fun x => x.batch_status == "approved") :=
    (List.perm_insertionSort _ _).mem_iff.mp h
  have := (List.mem_filter.mp hmem).2
  simpa using this

/-- A lab-approved stored batch used in closed instances. -/
def approvedBatch : BatchRow :=
  ⟨"B1", "BATCH_1", "h1", "a1", "approved", "2024-01-01"⟩

/-- A second lab-approved stored batch used in closed instances. -/
def approvedBatch2 : BatchRow :=
  ⟨"B2", "BATCH_2", "h1", "a1", "approved", "2024-01-02"⟩

/-- Closed instance of C9. -/
theorem availableBatches_all_approved_witness :
    approvedBatch ∈ fetchAvailableBatches ⟨[], [approvedBatch], [], [], []⟩ ∧
    approvedBatch.batch_status = "approved" :=
  ⟨by decide,
    availableBatches_all_approved ⟨[], [approvedBatch], [], [], []⟩ approvedBatch (by decide)⟩

/-- C7: submitting a collection record with an empty quantity_kg is
rejected by the local guard, with no store call issued. -/
theorem recordCollection_empty_quantity_rejected (jsonOk : String → Bool)
    (collector : Option CollectorRow) (location : Option GeoLocation)
    (form : CollectionForm) (h : form.quantity_kg = "") :
    recordCollection jsonOk collector location form = ActionResult.rejected := by
  cases collector with
  | none => rfl
  | some col =>
    cases location with
    | none => rfl
    | some loc => simp [recordCollection, h]

/-- Closed instance of C7. -/
theorem recordCollection_empty_quantity_rejected_witness :
    (CollectionForm.quantity_kg ⟨"h1", "", "root", "spring", "fresh", "", ""⟩ = "") ∧
    recordCollection jsonOkAlways (some ⟨"c1", "farmer", "pending"⟩) (some ⟨12, 77⟩)
      ⟨"h1", "", "root", "spring", "fresh", "", ""⟩ = ActionResult.rejected :=
  ⟨rfl, recordCollection_empty_quantity_rejected jsonOkAlways
    (some ⟨"c1", "farmer", "pending"⟩) (some ⟨12, 77⟩)
    ⟨"h1", "", "root", "spring", "fresh", "", ""⟩ rfl⟩

/-- C6 counterexample: createHerb with every field empty, including the
required botanical and local names, is not rejected — the insert is issued
with the empty values, so not every portal create action validates
required fields before calling the store. -/
theorem createHerb_no_validation_counterexample :
    createHerb ⟨"", "", "", "", "", "", ""⟩ ≠ ActionResult.rejected ∧
    createHerb ⟨"", "", "", "", "", "", ""⟩ =
      ActionResult.inserted ⟨"", "", none, none, none, none, none⟩ := by
  decide

/-- C6 amended: the Factory create actions and the Collector record action
reject empty required fields locally before any store call, but the Admin
herb creation issues its insert without any local non-empty check. -/
theorem portal_validation_guards (jsonOk : String → Bool) (profileId : String)
    (nowMs : Nat) (sb : Option BatchRow) (pf : ProcessForm) (prf : ProductForm)
    (steps : List ProcessingStepRow) (col : Option CollectorRow)
    (loc : Option GeoLocation) (cf : CollectionForm) (hf : HerbForm)
    (h1 : pf.process_type = "" ∨ pf.input_quantity_kg = "")
    (h2 : prf.product_name = "" ∨ prf.final_quantity = "")
    (h3 : cf.herb_id = "" ∨ cf.quantity_kg = "") :
    createProcessingStep jsonOk profileId sb pf = ActionResult.rejected ∧
    createProduct jsonOk profileId nowMs prf steps = ActionResult.rejected ∧
    recordCollection jsonOk col loc cf = ActionResult.rejected ∧
    ∃ row, createHerb hf = ActionResult.inserted row := by
  refine ⟨?_, ?_, ?_, ?_⟩
  · cases sb with
    | none => rfl
    | some b => simp [createProcessingStep, h1]
  · simp [createProduct, h2]
  · cases col with
    | none => rfl
    | some c =>
      cases loc with
      | none => rfl
      | some l => simp [recordCollection, h3]
  · exact ⟨_, rfl⟩

/-- Closed instance of the amended C6 statement. -/
theorem portal_validation_guards_witness :
    createProcessingStep jsonOkAlways "u1" (some approvedBatch)
      ⟨"", "", "", ""⟩ = ActionResult.rejected ∧
    createProduct jsonOkAlways "u1" 1700000000000
      ⟨"", "tablet", "", "tablets", ""⟩ [] = ActionResult.rejected ∧
    recordCollection jsonOkAlways (some ⟨"c1", "farmer", "pending"⟩) (some ⟨12, 77⟩)
      ⟨"", "", "root", "spring", "fresh", "", ""⟩ = ActionResult.rejected ∧
    ∃ row, createHerb ⟨"", "", "", "", "", "", ""⟩ = ActionResult.inserted row :=
  portal_validation_guards jsonOkAlways "u1" 1700000000000 (some approvedBatch)
    ⟨"", "", "", ""⟩ ⟨"", "tablet", "", "tablets", ""⟩ []
    (some ⟨"c1", "farmer", "pending"⟩) (some ⟨12, 77⟩)
    ⟨"", "", "root", "spring", "fresh", "", ""⟩ ⟨"", "", "", "", "", "", ""⟩
    (Or.inl rfl) (Or.inl rfl) (Or.inl rfl)

/-- A processing step on batch B1 that carries a completion date. -/
def stepDone : ProcessingStepRow := ⟨"S1", "B1", "m1", "drying", some "2024-01-05"⟩

/-- A second processing step on the same batch B1, still in progress. -/
def stepOpen : ProcessingStepRow := ⟨"S2", "B1", "m1", "grinding", none⟩

/-- The product row inserted by createProduct at the inputs of the C4
closed instances. -/
def prodInsert4 : ProductInsert :=
  ⟨"m1", "Ashwagandha Tablets", "tablet", "100", "tablets", "\x7b\x7d",
    ["B1"], "product|PROD_1700000000000|#|B1|"⟩

/-- C4 counterexample: with one completed and one in-progress step on the
same batch, createProduct issues an insert whose batch_ids reference batch
B1 although not all of the processing steps of B1 are completed. -/
theorem createProduct_incomplete_batch_counterexample :
    createProduct jsonOkAlways "m1" 1700000000000
        ⟨"Ashwagandha Tablets", "tablet", "100", "tablets", ""⟩ [stepDone, stepOpen] =
      ActionResult.inserted prodInsert4 ∧
    "B1" ∈ prodInsert4.batch_ids ∧
    stepOpen ∈ [stepDone, stepOpen] ∧
    stepOpen.batch_id = "B1" ∧
    stepOpen.completion_date = none := by
  decide

theorem productBatchIds_completed (steps : List ProcessingStepRow) :
    ∀ bid ∈ productBatchIds steps, ∃ s ∈ steps,
      s.batch_id = bid ∧ s.completion_date.isSome = true := by
  intro bid hbid
  unfold productBatchIds at hbid
  obtain ⟨s, hs, hsbid⟩ := List.mem_map.mp hbid
  obtain ⟨hsteps, hdone⟩ := List.mem_filter.mp hs
  exact ⟨s, hsteps, hsbid, by simpa using hdone⟩

/-- C4 amended: the batch_ids of every inserted product are exactly the
batch ids of the fetched processing steps carrying a completion date, so
each referenced batch has at least one completed step; the code never
checks that all steps of that batch are completed. -/
theorem createProduct_batch_ids_from_completed_steps (jsonOk : String → Bool)
    (profileId : String) (nowMs : Nat) (form : ProductForm)
    (steps : List ProcessingStepRow) (row : ProductInsert)
    (h : createProduct jsonOk profileId nowMs form steps = ActionResult.inserted row) :
    row.batch_ids = productBatchIds steps ∧
    ∀ bid ∈ row.batch_ids, ∃ s ∈ steps,
      s.batch_id = bid ∧ s.completion_date.isSome = true := by
  unfold createProduct at h
  split at h
  · exact ActionResult.noConfusion h
  · split at h <;> try dsimp only at h
    all_goals split at h
    case isTrue =>
      simp only [ActionResult.inserted.injEq] at h
      subst h
      exact ⟨rfl, productBatchIds_completed steps⟩
    case isFalse => exact ActionResult.noConfusion h
    case isTrue =>
      simp only [ActionResult.inserted.injEq] at h
      subst h
      exact ⟨rfl, productBatchIds_completed steps⟩
    case isFalse => exact ActionResult.noConfusion h

/-- Closed instance of the amended C4 statement. -/
theorem createProduct_batch_ids_from_completed_steps_witness :
    createProduct jsonOkAlways "m1" 1700000000000
        ⟨"Ashwagandha Tablets", "tablet", "100", "tablets", ""⟩ [stepDone, stepOpen] =
      ActionResult.inserted prodInsert4 ∧
    (prodInsert4.batch_ids = productBatchIds [stepDone, stepOpen] ∧
     ∀ bid ∈ prodInsert4.batch_ids, ∃ s ∈ [stepDone, stepOpen],
       s.batch_id = bid ∧ s.completion_date.isSome = true) :=
  ⟨by decide,
    createProduct_batch_ids_from_completed_steps jsonOkAlways "m1" 1700000000000
      ⟨"Ashwagandha Tablets", "tablet", "100", "tablets", ""⟩ [stepDone, stepOpen]
      prodInsert4 (by decide)⟩

/-- A quality test row that is already completed with stored results. -/
def qtCompleted : QualityTestRow :=
  ⟨"t1", "B1", "lab1", "S1", "dna_barcode", "completed",
    some ⟨"8.5", "0.01", "0.1", "1000", "Confirmed", "A", ""⟩, some "2024-01-03"⟩

/-- A different results payload entered later in the Lab form. -/
def newResults : TestResultsForm :=
  ⟨"9.0", "0.02", "0.2", "2000", "Changed", "B", "re-run"⟩

/-- C8 counterexample: saving the form against an already completed test
overwrites its stored results payload — nothing prevents a second write
after completion. -/
theorem updateTestResults_overwrites_counterexample :
    qtCompleted.test_status = "completed" ∧
    (updateTestResults "2024-02-02" newResults (some qtCompleted) [qtCompleted]).map
        (fun t => t.test_results) ≠ [qtCompleted.test_results] := by
  decide

/-- C8 amended: every row produced by the Lab update comes from a stored
row through applyTestUpdate; a completed row never moves out of the
completed status, and the row matching the selected id always ends
completed with the new completion date and the new results — even when it
was already completed, since no status guard exists. -/
theorem updateTestResults_one_shot (now : String) (results : TestResultsForm)
    (sel : QualityTestRow) (tests : List QualityTestRow) (t2 : QualityTestRow)
    (hmem : t2 ∈ updateTestResults now results (some sel) tests) :
    ∃ t ∈ tests, t2 = applyTestUpdate now results sel.id t ∧
      (t.test_status = "completed" → t2.test_status = "completed") ∧
      (t.id = sel.id → t2.test_status = "completed" ∧
        t2.completion_date = some now ∧ t2.test_results = some results) := by
  unfold updateTestResults at hmem
  obtain ⟨t, ht, hmap⟩ := List.mem_map.mp hmem
  subst hmap
  refine ⟨t, ht, rfl, ?_, ?_⟩
  · intro hc
    unfold applyTestUpdate
    by_cases hid : t.id = sel.id
    · simp [hid]
    · simp [hid, hc]
  · intro hid
    unfold applyTestUpdate
    simp [hid]

/-- The row qtCompleted after a second save with the new results. -/
def qtOverwritten : QualityTestRow :=
  ⟨"t1", "B1", "lab1", "S1", "dna_barcode", "completed",
    some newResults, some "2024-02-02"⟩

/-- Closed instance of the amended C8 statement. -/
theorem updateTestResults_one_shot_witness :
    qtOverwritten ∈
      updateTestResults "2024-02-02" newResults (some qtCompleted) [qtCompleted] ∧
    ∃ t ∈ [qtCompleted],
      qtOverwritten = applyTestUpdate "2024-02-02" newResults qtCompleted.id t ∧
      (t.test_status = "completed" → qtOverwritten.test_status = "completed") ∧
      (t.id = qtCompleted.id → qtOverwritten.test_status = "completed" ∧
        qtOverwritten.completion_date = some "2024-02-02" ∧
        qtOverwritten.test_results = some newResults) :=
  ⟨by decide,
    updateTestResults_one_shot "2024-02-02" newResults qtCompleted [qtCompleted]
      qtOverwritten (by decide)⟩

/-! ## Closed instances for the aggregator theorems -/

/-- A registered product whose stored QR value is the encoded token of the
payload with two batch ids. -/
def traceProduct : ProductRow :=
  ⟨"p1", "m1", "Ashwagandha Tablets", "tablet", "product|P1|##|B1|B2|", ["B1", "B2"]⟩

/-- A completed quality test stored for batch B1 only. -/
def traceTest : QualityTestRow :=
  ⟨"t1", "B1", "lab1", "S1", "dna_barcode", "completed", none, some "2024-01-03"⟩

/-- A store holding the registered product, its two batches and the one
quality test on B1. -/
def traceDB : DB :=
  ⟨[traceProduct], [approvedBatch, approvedBatch2], [traceTest], [], []⟩

/-- Closed instance of C2: a token absent from the stored QR values
resolves to NotFound. -/
theorem resolve_unknown_token_notFound_witness :
    (decodeQRCode "nope" = none ∨ ∀ p ∈ traceDB.products, p.qr_code ≠ "nope") ∧
    resolve traceDB "nope" = ResolveResult.notFound :=
  ⟨Or.inr (by decide),
    resolve_unknown_token_notFound traceDB "nope" (Or.inr (by decide))⟩

/-- Closed instance of C3 at the two-batch product with tests only on B1. -/
theorem resolve_found_trace_shape_witness :
    decodeQRCode "product|P1|##|B1|B2|" = some ⟨"product", "P1", ["B1", "B2"]⟩ ∧
    traceDB.products.find? (fun p => p.qr_code == "product|P1|##|B1|B2|") =
      some traceProduct ∧
    (∀ bid ∈ traceProduct.batch_ids, ∃ b ∈ traceDB.batches, b.id = bid) ∧
    ∃ tr : TraceResult,
      resolve traceDB "product|P1|##|B1|B2|" = ResolveResult.found tr ∧
      tr.product = traceProduct ∧
      tr.batches.length = traceProduct.batch_ids.length ∧
      (∀ t : QualityTestRow,
        t ∈ tr.qualityTests ↔ t ∈ traceDB.qualityTests ∧
          t.batch_id ∈ traceProduct.batch_ids) :=
  ⟨by decide, by decide, by decide,
    resolve_found_trace_shape traceDB "product|P1|##|B1|B2|"
      ⟨"product", "P1", ["B1", "B2"]⟩ traceProduct (by decide) (by decide) (by decide)⟩
